import Mathlib

/-- Python-like values stored in the mappings exchanged by the engine:
strings, numbers (Python int and float both modelled as rationals),
booleans, lists, and nested mappings (association lists of string keys). -/
inductive Value where
  | str (s : String)
  | num (q : ℚ)
  | bool (b : Bool)
  | list (vs : List Value)
  | dict (d : List (String × Value))
deriving Repr

mutual

/-- Decidable equality on values, by mutual structural recursion with the
nested list shapes. -/
def Value.decEq : (a b : Value) → Decidable (a = b)
  | .str a, .str b =>
      if h : a = b then isTrue (by rw [h])
      else isFalse (fun hh => h (Value.str.inj hh))
  | .num a, .num b =>
      if h : a = b then isTrue (by rw [h])
      else isFalse (fun hh => h (Value.num.inj hh))
  | .bool a, .bool b =>
      if h : a = b then isTrue (by rw [h])
      else isFalse (fun hh => h (Value.bool.inj hh))
  | .list a, .list b =>
      match Value.decEqList a b with
      | isTrue h => isTrue (by rw [h])
      | isFalse h => isFalse (fun hh => h (Value.list.inj hh))
  | .dict a, .dict b =>
      match Value.decEqPairs a b with
      | isTrue h => isTrue (by rw [h])
      | isFalse h => isFalse (fun hh => h (Value.dict.inj hh))
  | .str _, .num _ => isFalse (by intro h; exact Value.noConfusion h)
  | .str _, .bool _ => isFalse (by intro h; exact Value.noConfusion h)
  | .str _, .list _ => isFalse (by intro h; exact Value.noConfusion h)
  | .str _, .dict _ => isFalse (by intro h; exact Value.noConfusion h)
  | .num _, .str _ => isFalse (by intro h; exact Value.noConfusion h)
  | .num _, .bool _ => isFalse (by intro h; exact Value.noConfusion h)
  | .num _, .list _ => isFalse (by intro h; exact Value.noConfusion h)
  | .num _, .dict _ => isFalse (by intro h; exact Value.noConfusion h)
  | .bool _, .str _ => isFalse (by intro h; exact Value.noConfusion h)
  | .bool _, .num _ => isFalse (by intro h; exact Value.noConfusion h)
  | .bool _, .list _ => isFalse (by intro h; exact Value.noConfusion h)
  | .bool _, .dict _ => isFalse (by intro h; exact Value.noConfusion h)
  | .list _, .str _ => isFalse (by intro h; exact Value.noConfusion h)
  | .list _, .num _ => isFalse (by intro h; exact Value.noConfusion h)
  | .list _, .bool _ => isFalse (by intro h; exact Value.noConfusion h)
  | .list _, .dict _ => isFalse (by intro h; exact Value.noConfusion h)
  | .dict _, .str _ => isFalse (by intro h; exact Value.noConfusion h)
  | .dict _, .num _ => isFalse (by intro h; exact Value.noConfusion h)
  | .dict _, .bool _ => isFalse (by intro h; exact Value.noConfusion h)
  | .dict _, .list _ => isFalse (by intro h; exact Value.noConfusion h)

/-- Decidable equality for lists of values. -/
def Value.decEqList : (a b : List Value) → Decidable (a = b)
  | [], [] => isTrue rfl
  | [], _ :: _ => isFalse (by intro h; exact List.noConfusion h)
  | _ :: _, [] => isFalse (by intro h; exact List.noConfusion h)
  | x :: xs, y :: ys =>
      match Value.decEq x y, Value.decEqList xs ys with
      | isTrue h1, isTrue h2 => isTrue (by rw [h1, h2])
      | isFalse h1, _ => isFalse (fun hh => h1 (List.cons.inj hh).1)
      | _, isFalse h2 => isFalse (fun hh => h2 (List.cons.inj hh).2)

/-- Decidable equality for key-value pair lists. -/
def Value.decEqPairs : (a b : List (String × Value)) → Decidable (a = b)
  | [], [] => isTrue rfl
  | [], _ :: _ => isFalse (by intro h; exact List.noConfusion h)
  | _ :: _, [] => isFalse (by intro h; exact List.noConfusion h)
  | (k1, v1) :: xs, (k2, v2) :: ys =>
      if h1 : k1 = k2 then
        match Value.decEq v1 v2, Value.decEqPairs xs ys with
        | isTrue h2, isTrue h3 => isTrue (by rw [h1, h2, h3])
        | isFalse h2, _ =>
            isFalse (fun hh => h2 (congrArg (fun l => (l.headD (k1, v1)).2) hh))
        | _, isFalse h3 => isFalse (fun hh => h3 (List.cons.inj hh).2)
      else
        isFalse (fun hh => h1 (congrArg (fun l => (l.headD (k1, v1)).1) hh))

end

instance : DecidableEq Value := Value.decEq

/-- Decidable equality for fallible results. -/
instance {e a : Type} [DecidableEq e] [DecidableEq a] : DecidableEq (Except e a) :=
  fun x y =>
    match x, y with
    | Except.error u, Except.error v =>
        if h : u = v then isTrue (by rw [h])
        else isFalse (fun hh => h (Except.error.inj hh))
    | Except.ok u, Except.ok v =>
        if h : u = v then isTrue (by rw [h])
        else isFalse (fun hh => h (Except.ok.inj hh))
    | Except.error _, Except.ok _ => isFalse (fun hh => Except.noConfusion hh)
    | Except.ok _, Except.error _ => isFalse (fun hh => Except.noConfusion hh)

/-- A Python dict with string keys, as an ordered association list. -/
abbrev Dict := List (String × Value)

/-- Lookup of a key, mirroring Python d[k] and d.get(k): first matching entry. -/
def Dict.get : Dict → String → Option Value
  | [], _ => none
  | (k1, v1) :: rest, k => if k1 = k then some v1 else Dict.get rest k

/-- Python d.get(k, default). -/
def Dict.getD (d : Dict) (k : String) (dflt : Value) : Value :=
  (d.get k).getD dflt

/-- Writing one key, mirroring assignment into a Python dict: an existing key
keeps its position and gets the new value, a new key is appended. -/
def Dict.set : Dict → String → Value → Dict
  | [], k, v => [(k, v)]
  | (k1, v1) :: rest, k, v =>
      if k1 = k then (k, v) :: rest else (k1, v1) :: Dict.set rest k v

/-- Python d.update(kvs): write each pair in order. -/
def Dict.update (d : Dict) (kvs : List (String × Value)) : Dict :=
  kvs.foldl (fun a p => a.set p.1 p.2) d

/-- Name and optional version of one collaborator, as read by
get_engine_status. The collaborator implementations (the agents package) are
outside the supplied source; their surface here is a name attribute and an
optional version attribute (getattr with the "unknown" default, line 165). -/
structure Agent where
  name : String
  version : Option String := none

/-- Python str() as used in the f-string building the degraded decision_id
(line 100). The engine only applies it to task.get with the string default
"unknown", a string in every scenario of the spec; the remaining cases get
simple placeholder renderings and are exercised by no claim below. -/
def pyStr : Value → String
  | Value.str s => s
  | Value.num q => toString q
  | Value.bool b => if b then "True" else "False"
  | Value.list _ => "<list>"
  | Value.dict _ => "<dict>"

/-- State and collaborators of one SwarmDecisionEngine instance
(decision_engine.py, constructor lines 12 to 38). The three scoring agents
and the coordinator are constructed from classes outside the supplied
source, so their scoring behavior is carried as uninterpreted functions that
either return a value or raise (Except.error holds the str of the
exception). The field available_people is the current-pool attribute of the
resource agent (written at line 58, read by its find_suitable_resources);
resource_has_available_people is the hasattr test of line 57. The field now
stands for the datetime.now().isoformat() reading used at line 108. -/
structure SwarmDecisionEngine where
  name : String := "Swarm Decision Engine"
  version : String := "1.0.0"
  priority_agent : Agent
  resource_agent : Agent
  risk_agent : Agent
  coordinator : Agent
  analyze_priority : Dict → Except String Value
  find_suitable_resources : Dict → List Dict → Except String Value
  assess_risks : Dict → Except String Value
  coordinate_decision : Dict → Dict → Except String Dict
  resource_has_available_people : Bool := true
  available_people : List Dict := []
  now : String := ""

/-- The agents list built in the constructor (lines 31 to 35). -/
def SwarmDecisionEngine.agents (e : SwarmDecisionEngine) : List Agent :=
  [e.priority_agent, e.resource_agent, e.risk_agent]

/-- The fixed default roster returned by _get_default_people
(lines 111 to 154), transcribed field by field. -/
def _get_default_people : List Dict :=
  [ [("id", Value.str "PERSON001"),
     ("name", Value.str "Alice Chen"),
     ("email", Value.str "alice@company.com"),
     ("skills", Value.list [Value.str "Python", Value.str "Flask",
                            Value.str "Database", Value.str "Frontend"]),
     ("availability", Value.num (mkRat 8 10)),
     ("current_workload", Value.num (mkRat 6 10)),
     ("experience_level", Value.str "senior"),
     ("department", Value.str "Engineering")],
    [("id", Value.str "PERSON002"),
     ("name", Value.str "Bob Wang"),
     ("email", Value.str "bob@company.com"),
     ("skills", Value.list [Value.str "Python", Value.str "Neo4j",
                            Value.str "AI/ML", Value.str "System Design"]),
     ("availability", Value.num (mkRat 9 10)),
     ("current_workload", Value.num (mkRat 4 10)),
     ("experience_level", Value.str "senior"),
     ("department", Value.str "Engineering")],
    [("id", Value.str "PERSON003"),
     ("name", Value.str "Carol Liu"),
     ("email", Value.str "carol@company.com"),
     ("skills", Value.list [Value.str "Project Management",
                            Value.str "Requirements Analysis",
                            Value.str "Documentation"]),
     ("availability", Value.num (mkRat 7 10)),
     ("current_workload", Value.num (mkRat 5 10)),
     ("experience_level", Value.str "mid"),
     ("department", Value.str "Product")],
    [("id", Value.str "PERSON004"),
     ("name", Value.str "David Zhang"),
     ("email", Value.str "david@company.com"),
     ("skills", Value.list [Value.str "System Design", Value.str "Architecture",
                            Value.str "Performance"]),
     ("availability", Value.num (mkRat 6 10)),
     ("current_workload", Value.num (mkRat 7 10)),
     ("experience_level", Value.str "senior"),
     ("department", Value.str "Engineering")] ]

/-- The pool resolution of lines 53 to 54: the default roster replaces
exactly a missing (None) people argument. -/
def resolvePeople (peopleOpt : Option (List Dict)) : List Dict :=
  peopleOpt.getD _get_default_people

/-- The metadata pairs written into the decision at lines 85 to 91. -/
def engineMetadata (e : SwarmDecisionEngine) (peopleCount : ℕ) :
    List (String × Value) :=
  [("swarm_engine", Value.str e.name),
   ("engine_version", Value.str e.version),
   ("decision_method", Value.str "swarm_intelligence"),
   ("agents_involved", Value.num (e.agents.length : ℚ)),
   ("people_considered", Value.num (peopleCount : ℚ))]

/-- The final_decision.update call of lines 85 to 91. -/
def attachMetadata (e : SwarmDecisionEngine) (peopleCount : ℕ) (d : Dict) :
    Dict :=
  d.update (engineMetadata e peopleCount)

/-- The degraded decision built by the except handler (lines 99 to 109). -/
def degradedDecision (e : SwarmDecisionEngine) (task : Dict) (err : String) :
    Dict :=
  [("decision_id",
    Value.str ("DEC_" ++ pyStr (task.getD "id" (Value.str "unknown")) ++ "_ERROR")),
   ("task_id", task.getD "id" (Value.str "unknown")),
   ("recommendation", Value.str "群體決策失敗，建議人工評估"),
   ("confidence", Value.num (mkRat 1 10)),
   ("risk_level", Value.str "high"),
   ("assigned_to", Value.str "待分配"),
   ("error", Value.str err),
   ("swarm_engine", Value.str e.name),
   ("created_at", Value.str e.now)]

/-- Observable events of one decision cycle, recorded in source order; used
to state the contract that the pool injection precedes the ResourceFit call
and that the call reads the injected pool. -/
inductive Event where
  | setPool (pool : List Dict)
  | callPriority
  | callResourceFit (pool : List Dict)
  | callRisk
  | callCoordinator
deriving Repr, DecidableEq

/-- The four collaborator calls of the try block (lines 62 to 82), in source
order, over the engine state e1 current after the pool injection: priority
analysis, resource matching (reading the current pool attribute at call
time), risk assessment, and the coordinator merge of the collected results.
Returns the coordinator output (or the first raised exception) and the event
trace of the calls made. Console prints are ignored. -/
def collaboratorCalls (e1 : SwarmDecisionEngine) (task : Dict) :
    Except String Dict × List Event :=
  match e1.analyze_priority task with
  | Except.error ex => (Except.error ex, [Event.callPriority])
  | Except.ok priority_result =>
    match e1.find_suitable_resources task e1.available_people with
    | Except.error ex =>
        (Except.error ex,
         [Event.callPriority, Event.callResourceFit e1.available_people])
    | Except.ok resource_result =>
      match e1.assess_risks task with
      | Except.error ex =>
          (Except.error ex,
           [Event.callPriority, Event.callResourceFit e1.available_people,
            Event.callRisk])
      | Except.ok risk_result =>
        let agent_results : Dict :=
          [("priority", priority_result), ("resources", resource_result),
           ("risks", risk_result)]
        match e1.coordinate_decision task agent_results with
        | Except.error ex =>
            (Except.error ex,
             [Event.callPriority, Event.callResourceFit e1.available_people,
              Event.callRisk, Event.callCoordinator])
        | Except.ok final_decision =>
            (Except.ok final_decision,
             [Event.callPriority, Event.callResourceFit e1.available_people,
              Event.callRisk, Event.callCoordinator])

/-- The body of the try block of make_decision (lines 51 to 95): resolve the
pool, inject it into the resource agent when it has the attribute, run the
collaborator calls, attach the engine metadata to a successful coordinator
output. Returns the try result, the engine state after the run (the
injected pool persists even when a later call raises), and the event trace. -/
def decisionCycle (e : SwarmDecisionEngine) (task : Dict)
    (peopleOpt : Option (List Dict)) :
    Except String Dict × SwarmDecisionEngine × List Event :=
  let people := resolvePeople peopleOpt
  let e1 := if e.resource_has_available_people
            then { e with available_people := people } else e
  let ev0 : List Event := if e.resource_has_available_people
            then [Event.setPool people] else []
  match collaboratorCalls e1 task with
  | (Except.error ex, tr) => (Except.error ex, e1, ev0 ++ tr)
  | (Except.ok final_decision, tr) =>
      (Except.ok (attachMetadata e people.length final_decision), e1, ev0 ++ tr)

/-- make_decision (lines 40 to 109): the try body, with any raised exception
caught and replaced by the degraded decision. peopleOpt = none models the
omitted (None) people argument. The function is total: every input yields a
decision mapping. -/
def SwarmDecisionEngine.make_decision (e : SwarmDecisionEngine) (task : Dict)
    (peopleOpt : Option (List Dict)) : Dict × SwarmDecisionEngine × List Event :=
  match decisionCycle e task peopleOpt with
  | (Except.ok d, e1, tr) => (d, e1, tr)
  | (Except.error ex, e1, tr) => (degradedDecision e task ex, e1, tr)

/-- make_decision_with_custom_people (lines 177 to 188): a direct delegation
to make_decision with the people list passed through. -/
def SwarmDecisionEngine.make_decision_with_custom_people
    (e : SwarmDecisionEngine) (task : Dict) (people : List Dict) :
    Dict × SwarmDecisionEngine × List Event :=
  e.make_decision task (some people)

/-- One entry of agents_status (lines 163 to 167), also the shape of
coordinator_status (lines 170 to 174): name, version with the "unknown"
default, and the fixed liveness marker. -/
def agentStatusEntry (a : Agent) : Value :=
  Value.dict [("name", Value.str a.name),
              ("version", Value.str (a.version.getD "unknown")),
              ("status", Value.str "active")]

/-- get_engine_status (lines 156 to 175). -/
def SwarmDecisionEngine.get_engine_status (e : SwarmDecisionEngine) : Dict :=
  [("name", Value.str e.name),
   ("version", Value.str e.version),
   ("agents_count", Value.num (e.agents.length : ℚ)),
   ("agents_status", Value.list (e.agents.map agentStatusEntry)),
   ("coordinator_status", agentStatusEntry e.coordinator)]

/-- A collaborator record used in concrete instantiations. -/
def demoAgent (n : String) : Agent := { name := n, version := some "1.0.0" }

/-- A scoring collaborator that always succeeds with a fixed opinion. -/
def okCollab (v : Value) : Dict → Except String Value := fun _ => Except.ok v

/-- A scoring collaborator that always raises; msg is the str of the
exception. -/
def failCollab (msg : String) : Dict → Except String Value :=
  fun _ => Except.error msg

/-- Modelled from the spec: the Coordinator implementation
(agents/coordinator.py) is not among the supplied source files. Per the data
model of the spec (the required Decision fields) and its scenario for task
T1, coordinate_decision returns a Decision mapping whose task_id is the id
of the input task, alongside the other required fields; the merge policy
itself is declared out of scope by the spec, so fixed representative values
stand for the synthesized recommendation, confidence, risk level and
assignee. -/
def specCoordinate : Dict → Dict → Except String Dict := fun task _results =>
  Except.ok
    [("decision_id",
      Value.str ("DEC_" ++ pyStr (task.getD "id" (Value.str "unknown")))),
     ("task_id", task.getD "id" (Value.str "unknown")),
     ("recommendation", Value.str "proceed"),
     ("confidence", Value.num (mkRat 7 10)),
     ("risk_level", Value.str "medium"),
     ("assigned_to", Value.str "PERSON001")]

/-- Modelled from the spec: the contract that the coordinator fills the
required task_id field of the Decision from the id of the input task (with
the unknown sentinel used throughout the engine for a missing id). The
coordinator source is not among the supplied files, so this contract stands
for it where a claim depends on coordinator output. -/
def CoordinatorRespectsTaskId (f : Dict → Dict → Except String Dict) : Prop :=
  ∀ task results d, f task results = Except.ok d →
    d.get "task_id" = some (task.getD "id" (Value.str "unknown"))

/-- A concrete engine whose collaborators all succeed. -/
def demoEngineOk : SwarmDecisionEngine :=
  { priority_agent := demoAgent "Priority Agent"
    resource_agent := demoAgent "Resource Agent"
    risk_agent := demoAgent "Risk Agent"
    coordinator := demoAgent "Coordinator"
    analyze_priority := okCollab (Value.str "high")
    find_suitable_resources := fun _ pool => Except.ok (Value.num (pool.length : ℚ))
    assess_risks := okCollab (Value.str "low")
    coordinate_decision := specCoordinate }

/-- A concrete engine whose risk collaborator raises with text boom. -/
def demoEngineRaise : SwarmDecisionEngine :=
  { demoEngineOk with assess_risks := failCollab "boom" }

/-- A concrete engine whose priority collaborator raises an exception whose
str is the empty string (as Python Exception() does). -/
def demoEngineRaiseEmpty : SwarmDecisionEngine :=
  { demoEngineOk with analyze_priority := failCollab "" }

/-- The mapping returned by the clashing coordinator below: it already
carries a swarm_engine key of its own. -/
def clashDecision : Dict :=
  [("task_id", Value.str "T1"),
   ("swarm_engine", Value.str "coordinator-set")]

/-- A coordinator whose output reuses the key swarm_engine. -/
def clashCoordinate : Dict → Dict → Except String Dict :=
  fun _ _ => Except.ok clashDecision

/-- A concrete engine whose coordinator output clashes with a metadata key. -/
def demoEngineClash : SwarmDecisionEngine :=
  { demoEngineOk with coordinate_decision := clashCoordinate }

/-- The task of the T1 scenario. -/
def taskT1 : Dict := [("id", Value.str "T1")]

/-- Writing key k leaves the lookup of every other key unchanged. -/
theorem Dict.get_set_ne (d : Dict) (k k2 : String) (v : Value) (h : k ≠ k2) :
    (d.set k v).get k2 = d.get k2 := by
  induction d with
  | nil => simp [Dict.set, Dict.get, h]
  | cons p rest ih =>
      obtain ⟨k1, v1⟩ := p
      by_cases h1 : k1 = k
      · subst h1; simp [Dict.set, Dict.get, h]
      · simp only [Dict.set, if_neg h1, Dict.get]
        by_cases h2 : k1 = k2
        · simp [h2]
        · simp [h2, ih]

/-- Writing key k makes its lookup the written value. -/
theorem Dict.get_set_self (d : Dict) (k : String) (v : Value) :
    (d.set k v).get k = some v := by
  induction d with
  | nil => simp [Dict.set, Dict.get]
  | cons p rest ih =>
      obtain ⟨k1, v1⟩ := p
      by_cases h : k1 = k
      · simp [Dict.set, h, Dict.get]
      · simp [Dict.set, h, Dict.get, ih]

/-- An update whose keys all differ from k leaves the lookup of k unchanged. -/
theorem Dict.get_update_not_mem (d : Dict) (kvs : List (String × Value))
    (k : String) (h : ∀ p ∈ kvs, p.1 ≠ k) :
    (d.update kvs).get k = d.get k := by
  induction kvs generalizing d with
  | nil => rfl
  | cons p rest ih =>
      obtain ⟨k1, v1⟩ := p
      have h1 : k1 ≠ k := h (k1, v1) (List.mem_cons_self _ _)
      have h2 : ∀ q ∈ rest, q.1 ≠ k := fun q hq => h q (List.mem_cons_of_mem _ hq)
      show ((d.set k1 v1).update rest).get k = d.get k
      rw [ih _ h2, Dict.get_set_ne _ _ _ _ h1]

/-- The metadata attach changes no key outside the five metadata keys. -/
theorem attachMetadata_preserves (e : SwarmDecisionEngine) (n : ℕ) (d : Dict)
    (k : String)
    (h : k ∉ ["swarm_engine", "engine_version", "decision_method",
              "agents_involved", "people_considered"]) :
    (attachMetadata e n d).get k = d.get k := by
  have hk : k ≠ "swarm_engine" ∧ k ≠ "engine_version" ∧ k ≠ "decision_method"
      ∧ k ≠ "agents_involved" ∧ k ≠ "people_considered" := by
    simpa using h
  apply Dict.get_update_not_mem
  intro p hp
  simp only [engineMetadata, List.mem_cons, List.not_mem_nil, or_false] at hp
  rcases hp with h1 | h1 | h1 | h1 | h1 <;> subst h1
  · exact fun hh => hk.1 hh.symm
  · exact fun hh => hk.2.1 hh.symm
  · exact fun hh => hk.2.2.1 hh.symm
  · exact fun hh => hk.2.2.2.1 hh.symm
  · exact fun hh => hk.2.2.2.2 hh.symm

/-- After the attach, swarm_engine holds the engine name. -/
theorem attachMetadata_get_swarm_engine (e : SwarmDecisionEngine) (n : ℕ)
    (d : Dict) :
    (attachMetadata e n d).get "swarm_engine" = some (Value.str e.name) := by
  simp only [attachMetadata, engineMetadata, Dict.update, List.foldl]
  rw [Dict.get_set_ne _ _ _ _ (by decide), Dict.get_set_ne _ _ _ _ (by decide),
      Dict.get_set_ne _ _ _ _ (by decide), Dict.get_set_ne _ _ _ _ (by decide),
      Dict.get_set_self]

/-- After the attach, engine_version holds the engine version string. -/
theorem attachMetadata_get_engine_version (e : SwarmDecisionEngine) (n : ℕ)
    (d : Dict) :
    (attachMetadata e n d).get "engine_version" = some (Value.str e.version) := by
  simp only [attachMetadata, engineMetadata, Dict.update, List.foldl]
  rw [Dict.get_set_ne _ _ _ _ (by decide), Dict.get_set_ne _ _ _ _ (by decide),
      Dict.get_set_ne _ _ _ _ (by decide), Dict.get_set_self]

/-- After the attach, decision_method is the fixed method marker. -/
theorem attachMetadata_get_decision_method (e : SwarmDecisionEngine) (n : ℕ)
    (d : Dict) :
    (attachMetadata e n d).get "decision_method"
      = some (Value.str "swarm_intelligence") := by
  simp only [attachMetadata, engineMetadata, Dict.update, List.foldl]
  rw [Dict.get_set_ne _ _ _ _ (by decide), Dict.get_set_ne _ _ _ _ (by decide),
      Dict.get_set_self]

/-- After the attach, agents_involved is the length of the agents list,
which the constructor fixes at three. -/
theorem attachMetadata_get_agents_involved (e : SwarmDecisionEngine) (n : ℕ)
    (d : Dict) :
    (attachMetadata e n d).get "agents_involved" = some (Value.num 3) := by
  simp only [attachMetadata, engineMetadata, Dict.update, List.foldl]
  rw [Dict.get_set_ne _ _ _ _ (by decide), Dict.get_set_self]
  have h3 : e.agents.length = 3 := rfl
  rw [h3]
  norm_num

/-- After the attach, people_considered is the pool size passed in. -/
theorem attachMetadata_get_people_considered (e : SwarmDecisionEngine) (n : ℕ)
    (d : Dict) :
    (attachMetadata e n d).get "people_considered"
      = some (Value.num (n : ℚ)) := by
  simp only [attachMetadata, engineMetadata, Dict.update, List.foldl]
  exact Dict.get_set_self _ _ _

/-- The coordinator output of a successful collaborator run is a value the
coordinate_decision call of that engine state returned. -/
theorem collaboratorCalls_ok_coordinate (e1 : SwarmDecisionEngine) (task : Dict)
    (fd : Dict) (tr : List Event)
    (h : collaboratorCalls e1 task = (Except.ok fd, tr)) :
    ∃ results, e1.coordinate_decision task results = Except.ok fd := by
  unfold collaboratorCalls at h
  rcases h1 : e1.analyze_priority task with ex | pr
  · simp only [h1] at h
    exact absurd (Prod.mk.inj h).1 (by simp)
  · simp only [h1] at h
    rcases h2 : e1.find_suitable_resources task e1.available_people with ex | rr
    · simp only [h2] at h
      exact absurd (Prod.mk.inj h).1 (by simp)
    · simp only [h2] at h
      rcases h3 : e1.assess_risks task with ex | kr
      · simp only [h3] at h
        exact absurd (Prod.mk.inj h).1 (by simp)
      · simp only [h3] at h
        rcases h4 : e1.coordinate_decision task
            [("priority", pr), ("resources", rr), ("risks", kr)] with ex | fd0
        · simp only [h4] at h
          exact absurd (Prod.mk.inj h).1 (by simp)
        · simp only [h4] at h
          rw [Except.ok.inj (Prod.mk.inj h).1] at h4
          exact ⟨_, h4⟩

/-- Every ResourceFit event of a collaborator run reads the pool attribute
current in the engine state of that run. -/
theorem collaboratorCalls_pool (e1 : SwarmDecisionEngine) (task : Dict) :
    ∀ q, Event.callResourceFit q ∈ (collaboratorCalls e1 task).2 →
      q = e1.available_people := by
  intro q hq
  unfold collaboratorCalls at hq
  rcases h1 : e1.analyze_priority task with ex | pr
  · simp only [h1] at hq
    simp at hq
  · simp only [h1] at hq
    rcases h2 : e1.find_suitable_resources task e1.available_people with ex | rr
    · simp only [h2] at hq
      simp at hq
      exact hq
    · simp only [h2] at hq
      rcases h3 : e1.assess_risks task with ex | kr
      · simp only [h3] at hq
        simp at hq
        exact hq
      · simp only [h3] at hq
        rcases h4 : e1.coordinate_decision task
            [("priority", pr), ("resources", rr), ("risks", kr)] with ex | fd
        · simp only [h4] at hq
          simp at hq
          exact hq
        · simp only [h4] at hq
          simp at hq
          exact hq

/-- A successful decision returned by make_decision is the cycle result. -/
theorem make_decision_fst_ok (e : SwarmDecisionEngine) (task : Dict)
    (peopleOpt : Option (List Dict)) (d : Dict)
    (h : (decisionCycle e task peopleOpt).1 = Except.ok d) :
    (e.make_decision task peopleOpt).1 = d := by
  unfold SwarmDecisionEngine.make_decision
  rcases hc : decisionCycle e task peopleOpt with ⟨r, e1, tr⟩
  rw [hc] at h
  rcases r with ex | dd
  · exact absurd (show Except.error ex = Except.ok d from h) (by simp)
  · simpa using Except.ok.inj h

/-- A failed cycle makes make_decision return the degraded decision built
from the cycle error text. -/
theorem make_decision_fst_error (e : SwarmDecisionEngine) (task : Dict)
    (peopleOpt : Option (List Dict)) (ex : String)
    (h : (decisionCycle e task peopleOpt).1 = Except.error ex) :
    (e.make_decision task peopleOpt).1 = degradedDecision e task ex := by
  unfold SwarmDecisionEngine.make_decision
  rcases hc : decisionCycle e task peopleOpt with ⟨r, e1, tr⟩
  rw [hc] at h
  rcases r with ex2 | dd
  · have hee : ex2 = ex := Except.error.inj h
    simp [hee]
  · exact absurd (show Except.ok dd = Except.error ex from h) (by simp)

/-- The trace of make_decision is the trace of its cycle. -/
theorem make_decision_trace (e : SwarmDecisionEngine) (task : Dict)
    (peopleOpt : Option (List Dict)) :
    (e.make_decision task peopleOpt).2.2 = (decisionCycle e task peopleOpt).2.2 := by
  unfold SwarmDecisionEngine.make_decision
  rcases hc : decisionCycle e task peopleOpt with ⟨r, e1, tr⟩
  rcases r <;> rfl

/-- A successful cycle result is some coordinator output with the engine
metadata attached, the pool count being the resolved pool length. -/
theorem decisionCycle_ok_shape (e : SwarmDecisionEngine) (task : Dict)
    (peopleOpt : Option (List Dict)) (d : Dict)
    (h : (decisionCycle e task peopleOpt).1 = Except.ok d) :
    ∃ results fd, e.coordinate_decision task results = Except.ok fd
      ∧ d = attachMetadata e (resolvePeople peopleOpt).length fd := by
  set e1 := (if e.resource_has_available_people = true
      then { e with available_people := resolvePeople peopleOpt } else e)
    with he1
  simp only [decisionCycle] at h
  rw [← he1] at h
  rcases hc : collaboratorCalls e1 task with ⟨r, tr⟩
  rw [hc] at h
  rcases r with ex | fd
  · exact absurd (show Except.error ex = Except.ok d from h) (by simp)
  · have hfd := Except.ok.inj (show
        Except.ok (attachMetadata e (resolvePeople peopleOpt).length fd)
          = Except.ok d from h)
    obtain ⟨results, hco⟩ := collaboratorCalls_ok_coordinate e1 task fd tr hc
    have hcd : e1.coordinate_decision = e.coordinate_decision := by
      rw [he1]; split <;> rfl
    rw [hcd] at hco
    exact ⟨results, fd, hco, hfd.symm⟩

/-- With the pool attribute present, the cycle trace starts with the pool
injection and every ResourceFit call in it reads the injected pool. -/
theorem decisionCycle_trace_shape (e : SwarmDecisionEngine) (task : Dict)
    (peopleOpt : Option (List Dict))
    (h : e.resource_has_available_people = true) :
    ∃ rest, (decisionCycle e task peopleOpt).2.2
        = Event.setPool (resolvePeople peopleOpt) :: rest
      ∧ ∀ q, Event.callResourceFit q ∈ rest → q = resolvePeople peopleOpt := by
  set e1 := (if e.resource_has_available_people = true
      then { e with available_people := resolvePeople peopleOpt } else e)
    with he1
  have hpool : e1.available_people = resolvePeople peopleOpt := by
    rw [he1, if_pos h]
  have htr : (decisionCycle e task peopleOpt).2.2
      = (if e.resource_has_available_people = true
         then [Event.setPool (resolvePeople peopleOpt)] else [])
        ++ (collaboratorCalls e1 task).2 := by
    simp only [decisionCycle]
    rw [← he1]
    rcases hc : collaboratorCalls e1 task with ⟨r, tr⟩
    rcases r <;> rfl
  rw [if_pos h] at htr
  refine ⟨(collaboratorCalls e1 task).2, htr, ?_⟩
  intro q hq
  have h5 := collaboratorCalls_pool e1 task q hq
  rw [hpool] at h5
  exact h5

/-- The spec-modelled coordinator satisfies the spec-modelled task_id
contract. -/
theorem specCoordinate_respects_task_id :
    CoordinatorRespectsTaskId specCoordinate := by
  intro task results d h
  cases h
  rfl

/-- C1 (amended): make_decision is total by construction (it returns a
decision mapping on every input); whenever any collaborator call or the
coordinator merge raises, the returned decision has confidence 0.1,
risk_level high, and an error field equal to the text of the raised
exception, hence non-empty exactly when that text is non-empty. -/
theorem C1_degraded_shape (e : SwarmDecisionEngine) (task : Dict)
    (peopleOpt : Option (List Dict)) (ex : String)
    (h : (decisionCycle e task peopleOpt).1 = Except.error ex) :
    (e.make_decision task peopleOpt).1.get "confidence" = some (Value.num (mkRat 1 10))
    ∧ (e.make_decision task peopleOpt).1.get "risk_level" = some (Value.str "high")
    ∧ (e.make_decision task peopleOpt).1.get "error" = some (Value.str ex) := by
  have hm := make_decision_fst_error e task peopleOpt ex h
  rw [hm]
  exact ⟨rfl, rfl, rfl⟩

/-- C1 witness: a concrete failing run produces the degraded shape. -/
theorem C1_degraded_shape_witness :
    (decisionCycle demoEngineRaise taskT1 none).1 = Except.error "boom"
    ∧ ((demoEngineRaise.make_decision taskT1 none).1.get "confidence"
          = some (Value.num (mkRat 1 10))
       ∧ (demoEngineRaise.make_decision taskT1 none).1.get "risk_level"
          = some (Value.str "high")
       ∧ (demoEngineRaise.make_decision taskT1 none).1.get "error"
          = some (Value.str "boom")) :=
  ⟨by decide, C1_degraded_shape demoEngineRaise taskT1 none "boom" (by decide)⟩

/-- C1 counterexample: a collaborator raising an exception whose text is
empty (as Python Exception() prints) yields a degraded decision whose error
field is the empty string, refuting the non-empty error field part of the
claim as stated. -/
theorem C1_counterexample :
    (decisionCycle demoEngineRaiseEmpty [] none).1 = Except.error ""
    ∧ (demoEngineRaiseEmpty.make_decision [] none).1.get "error"
        = some (Value.str "")
    ∧ ¬ (∃ s, (demoEngineRaiseEmpty.make_decision [] none).1.get "error"
          = some (Value.str s) ∧ s ≠ "") := by
  refine ⟨by decide, by decide, ?_⟩
  rintro ⟨s, hs, hne⟩
  have h2 : (demoEngineRaiseEmpty.make_decision [] none).1.get "error"
      = some (Value.str "") := by decide
  rw [hs] at h2
  exact hne (Value.str.inj (Option.some.inj h2))

/-- C2 (amended): on the success path the returned decision carries all five
engine metadata fields, with agents_involved equal to the three scoring
collaborators and people_considered equal to the length of the pool used for
the call; on the degraded path only swarm_engine among the five is present,
while engine_version, decision_method, agents_involved and people_considered
are absent. -/
theorem C2_metadata_fields (e : SwarmDecisionEngine) (task : Dict)
    (peopleOpt : Option (List Dict)) :
    (∀ d, (decisionCycle e task peopleOpt).1 = Except.ok d →
      (e.make_decision task peopleOpt).1.get "swarm_engine"
          = some (Value.str e.name)
      ∧ (e.make_decision task peopleOpt).1.get "engine_version"
          = some (Value.str e.version)
      ∧ (e.make_decision task peopleOpt).1.get "decision_method"
          = some (Value.str "swarm_intelligence")
      ∧ (e.make_decision task peopleOpt).1.get "agents_involved"
          = some (Value.num 3)
      ∧ (e.make_decision task peopleOpt).1.get "people_considered"
          = some (Value.num ((resolvePeople peopleOpt).length : ℚ)))
    ∧ (∀ ex, (decisionCycle e task peopleOpt).1 = Except.error ex →
      (e.make_decision task peopleOpt).1.get "swarm_engine"
          = some (Value.str e.name)
      ∧ (e.make_decision task peopleOpt).1.get "engine_version" = none
      ∧ (e.make_decision task peopleOpt).1.get "decision_method" = none
      ∧ (e.make_decision task peopleOpt).1.get "agents_involved" = none
      ∧ (e.make_decision task peopleOpt).1.get "people_considered" = none) := by
  constructor
  · intro d hok
    obtain ⟨results, fd, hco, hd⟩ := decisionCycle_ok_shape e task peopleOpt d hok
    have hm := make_decision_fst_ok e task peopleOpt d hok
    rw [hm, hd]
    exact ⟨attachMetadata_get_swarm_engine e _ fd,
           attachMetadata_get_engine_version e _ fd,
           attachMetadata_get_decision_method e _ fd,
           attachMetadata_get_agents_involved e _ fd,
           attachMetadata_get_people_considered e _ fd⟩
  · intro ex herr
    have hm := make_decision_fst_error e task peopleOpt ex herr
    rw [hm]
    exact ⟨rfl, rfl, rfl, rfl, rfl⟩

/-- C2 witness: a concrete successful run carries all five fields with the
default roster size, by the success half of the theorem. -/
theorem C2_metadata_fields_witness :
    (decisionCycle demoEngineOk taskT1 none).1
        = Except.ok ((demoEngineOk.make_decision taskT1 none).1)
    ∧ ((demoEngineOk.make_decision taskT1 none).1.get "swarm_engine"
          = some (Value.str demoEngineOk.name)
       ∧ (demoEngineOk.make_decision taskT1 none).1.get "engine_version"
          = some (Value.str demoEngineOk.version)
       ∧ (demoEngineOk.make_decision taskT1 none).1.get "decision_method"
          = some (Value.str "swarm_intelligence")
       ∧ (demoEngineOk.make_decision taskT1 none).1.get "agents_involved"
          = some (Value.num 3)
       ∧ (demoEngineOk.make_decision taskT1 none).1.get "people_considered"
          = some (Value.num ((resolvePeople none).length : ℚ))) :=
  ⟨by decide,
   (C2_metadata_fields demoEngineOk taskT1 none).1
     ((demoEngineOk.make_decision taskT1 none).1) (by decide)⟩

/-- C2 counterexample: a degraded run whose decision lacks engine_version,
decision_method, agents_involved and people_considered, refuting the claim
that every returned decision contains all five metadata fields. -/
theorem C2_counterexample :
    (decisionCycle demoEngineRaise [] none).1 = Except.error "boom"
    ∧ (demoEngineRaise.make_decision [] none).1.get "engine_version" = none
    ∧ (demoEngineRaise.make_decision [] none).1.get "decision_method" = none
    ∧ (demoEngineRaise.make_decision [] none).1.get "agents_involved" = none
    ∧ (demoEngineRaise.make_decision [] none).1.get "people_considered" = none := by
  decide

/-- C3 (amended): the metadata attach step of make_decision changes no key
of the coordinator-produced mapping outside the five engine metadata keys; a
coordinator-set key named like one of the five is overwritten with the
engine value, so preservation holds exactly off that reserved key set. -/
theorem C3_attach_preserves_non_metadata_keys
    (e : SwarmDecisionEngine) (n : ℕ) (d : Dict) (k : String)
    (h : k ∉ ["swarm_engine", "engine_version", "decision_method",
              "agents_involved", "people_considered"]) :
    (attachMetadata e n d).get k = d.get k :=
  attachMetadata_preserves e n d k h

/-- C3 witness: the coordinator-set key task_id survives the attach step
unchanged. -/
theorem C3_attach_preserves_non_metadata_keys_witness :
    ("task_id" ∉ ["swarm_engine", "engine_version", "decision_method",
                  "agents_involved", "people_considered"])
    ∧ (attachMetadata demoEngineOk 4 [("task_id", Value.str "T1")]).get "task_id"
        = Dict.get [("task_id", Value.str "T1")] "task_id" :=
  ⟨by decide,
   C3_attach_preserves_non_metadata_keys demoEngineOk 4
     [("task_id", Value.str "T1")] "task_id" (by decide)⟩

/-- C3 counterexample: a coordinator-set swarm_engine key does not keep the
value the coordinator gave it; the attach step overwrites it with the engine
name, refuting the claim that no pre-existing key of the coordinator mapping
is changed. -/
theorem C3_counterexample :
    clashDecision.get "swarm_engine" = some (Value.str "coordinator-set")
    ∧ (demoEngineClash.make_decision taskT1 none).1.get "swarm_engine"
        ≠ clashDecision.get "swarm_engine" := by
  decide

/-- C4: with the empty task (no id) and a failing cycle, the degraded
decision carries the sentinel task_id unknown, the decision_id
DEC_unknown_ERROR which ends in _ERROR, and confidence 0.1; the missing id
is degraded through the sentinel, not treated as an error of its own. -/
theorem C4_empty_task_degraded (e : SwarmDecisionEngine)
    (peopleOpt : Option (List Dict)) (ex : String)
    (h : (decisionCycle e [] peopleOpt).1 = Except.error ex) :
    (e.make_decision [] peopleOpt).1.get "task_id" = some (Value.str "unknown")
    ∧ (e.make_decision [] peopleOpt).1.get "decision_id"
        = some (Value.str "DEC_unknown_ERROR")
    ∧ "DEC_unknown_ERROR" = "DEC_unknown" ++ "_ERROR"
    ∧ (e.make_decision [] peopleOpt).1.get "confidence"
        = some (Value.num (mkRat 1 10)) := by
  have hm := make_decision_fst_error e [] peopleOpt ex h
  rw [hm]
  exact ⟨rfl, rfl, by decide, rfl⟩

/-- C4 witness: a concrete raising run on the empty task. -/
theorem C4_empty_task_degraded_witness :
    (decisionCycle demoEngineRaise [] none).1 = Except.error "boom"
    ∧ ((demoEngineRaise.make_decision [] none).1.get "task_id"
          = some (Value.str "unknown")
       ∧ (demoEngineRaise.make_decision [] none).1.get "decision_id"
          = some (Value.str "DEC_unknown_ERROR")
       ∧ "DEC_unknown_ERROR" = "DEC_unknown" ++ "_ERROR"
       ∧ (demoEngineRaise.make_decision [] none).1.get "confidence"
          = some (Value.num (mkRat 1 10))) :=
  ⟨by decide, C4_empty_task_degraded demoEngineRaise none "boom" (by decide)⟩

/-- C5: calling make_decision with the people argument omitted (None) is the
same call as passing the default roster explicitly: same resolved pool, same
decision, same state, same trace. -/
theorem C5_default_people_equivalence (e : SwarmDecisionEngine) (task : Dict) :
    e.make_decision task none = e.make_decision task (some _get_default_people) :=
  rfl

/-- C6: on the T1 task with no people supplied, a successful run whose
coordinator meets the spec-modelled task_id contract returns task_id T1 and
people_considered 4, the default roster size. -/
theorem C6_task_T1_default_roster (e : SwarmDecisionEngine) (d : Dict)
    (hC : CoordinatorRespectsTaskId e.coordinate_decision)
    (h : (decisionCycle e taskT1 none).1 = Except.ok d) :
    (e.make_decision taskT1 none).1.get "task_id" = some (Value.str "T1")
    ∧ (e.make_decision taskT1 none).1.get "people_considered"
        = some (Value.num 4) := by
  obtain ⟨results, fd, hco, hd⟩ := decisionCycle_ok_shape e taskT1 none d h
  have hm := make_decision_fst_ok e taskT1 none d h
  rw [hm, hd]
  constructor
  · rw [attachMetadata_preserves e _ fd "task_id" (by decide)]
    rw [hC taskT1 results fd hco]
    rfl
  · rw [attachMetadata_get_people_considered]
    decide

/-- C6 witness: the concrete engine with the spec-modelled coordinator. -/
theorem C6_task_T1_default_roster_witness :
    CoordinatorRespectsTaskId demoEngineOk.coordinate_decision
    ∧ (decisionCycle demoEngineOk taskT1 none).1
        = Except.ok ((demoEngineOk.make_decision taskT1 none).1)
    ∧ ((demoEngineOk.make_decision taskT1 none).1.get "task_id"
          = some (Value.str "T1")
       ∧ (demoEngineOk.make_decision taskT1 none).1.get "people_considered"
          = some (Value.num 4)) :=
  ⟨specCoordinate_respects_task_id, by decide,
   C6_task_T1_default_roster demoEngineOk
     ((demoEngineOk.make_decision taskT1 none).1)
     specCoordinate_respects_task_id (by decide)⟩

/-- C7: make_decision_with_custom_people is extensionally the call
make_decision with the same task and people for every non-null people list. -/
theorem C7_custom_people_alias (e : SwarmDecisionEngine) (task : Dict)
    (people : List Dict) :
    e.make_decision_with_custom_people task people
      = e.make_decision task (some people) :=
  rfl

/-- C8: when the resource agent exposes the pool attribute (as the spec
contract for ResourceFit mandates), the cycle records the pool injection as
its first event, before any collaborator call, and every ResourceFit
invocation in the cycle reads exactly the pool resolved and injected for
that cycle. -/
theorem C8_pool_injected_before_resource_call (e : SwarmDecisionEngine)
    (task : Dict) (peopleOpt : Option (List Dict))
    (h : e.resource_has_available_people = true) :
    ((e.make_decision task peopleOpt).2.2).head?
        = some (Event.setPool (resolvePeople peopleOpt))
    ∧ ∀ q, Event.callResourceFit q ∈ (e.make_decision task peopleOpt).2.2 →
        q = resolvePeople peopleOpt := by
  have ht := make_decision_trace e task peopleOpt
  obtain ⟨rest, hr, hmem⟩ := decisionCycle_trace_shape e task peopleOpt h
  rw [ht, hr]
  refine ⟨rfl, ?_⟩
  intro q hq
  rcases List.mem_cons.mp hq with h1 | h1
  · exact Event.noConfusion h1
  · exact hmem q h1

/-- C8 witness: the concrete all-success engine has the attribute and its
trace starts with the injection of the default roster. -/
theorem C8_pool_injected_before_resource_call_witness :
    demoEngineOk.resource_has_available_people = true
    ∧ (((demoEngineOk.make_decision taskT1 none).2.2).head?
          = some (Event.setPool (resolvePeople none))
       ∧ ∀ q, Event.callResourceFit q ∈ (demoEngineOk.make_decision taskT1 none).2.2 →
          q = resolvePeople none) :=
  ⟨rfl, C8_pool_injected_before_resource_call demoEngineOk taskT1 none rfl⟩

/-- C9: get_engine_status lists one status entry per scoring collaborator
(the three agents, in order) under agents_status plus a coordinator entry
under coordinator_status; every entry carries the collaborator name, its
version string with the explicit unknown sentinel when the collaborator has
no version, and the fixed active liveness marker; the call is a total pure
function of the engine value. -/
theorem C9_engine_status_shape (e : SwarmDecisionEngine) :
    (e.get_engine_status).get "agents_status"
        = some (Value.list (e.agents.map agentStatusEntry))
    ∧ e.agents.length = 3
    ∧ (∀ a : Agent, agentStatusEntry a = Value.dict
        [("name", Value.str a.name),
         ("version", Value.str (a.version.getD "unknown")),
         ("status", Value.str "active")])
    ∧ (∀ a : Agent, a.version = none →
        agentStatusEntry a = Value.dict
          [("name", Value.str a.name),
           ("version", Value.str "unknown"),
           ("status", Value.str "active")])
    ∧ (e.get_engine_status).get "coordinator_status"
        = some (agentStatusEntry e.coordinator) := by
  refine ⟨rfl, rfl, fun a => rfl, fun a ha => ?_, rfl⟩
  simp [agentStatusEntry, ha]

/-- C9 witness: a versionless collaborator reports the unknown sentinel. -/
theorem C9_engine_status_shape_witness :
    ({ name := "Coordinator" } : Agent).version = none
    ∧ agentStatusEntry { name := "Coordinator" } = Value.dict
        [("name", Value.str "Coordinator"),
         ("version", Value.str "unknown"),
         ("status", Value.str "active")] :=
  ⟨rfl, (C9_engine_status_shape demoEngineOk).2.2.2.1 { name := "Coordinator" } rfl⟩

/-- C10: only a missing (None) people argument triggers the default roster;
an explicit empty list resolves to the empty pool as-is, and a successful
run with it reports zero people_considered. -/
theorem C10_empty_list_not_default (e : SwarmDecisionEngine) (task : Dict) :
    resolvePeople (some []) = []
    ∧ resolvePeople none = _get_default_people
    ∧ (∀ d, (decisionCycle e task (some [])).1 = Except.ok d →
        (e.make_decision task (some [])).1.get "people_considered"
          = some (Value.num 0)) := by
  refine ⟨rfl, rfl, ?_⟩
  intro d hok
  obtain ⟨results, fd, hco, hd⟩ := decisionCycle_ok_shape e task (some []) d hok
  have hm := make_decision_fst_ok e task (some []) d hok
  rw [hm, hd, attachMetadata_get_people_considered]
  decide

/-- C10 witness: the concrete engine with an explicit empty pool reports
zero people_considered. -/
theorem C10_empty_list_not_default_witness :
    (decisionCycle demoEngineOk taskT1 (some [])).1
        = Except.ok ((demoEngineOk.make_decision taskT1 (some [])).1)
    ∧ (demoEngineOk.make_decision taskT1 (some [])).1.get "people_considered"
        = some (Value.num 0) :=
  ⟨by decide,
   (C10_empty_list_not_default demoEngineOk taskT1).2.2
     ((demoEngineOk.make_decision taskT1 (some [])).1) (by decide)⟩
